import Mathlib

/-!
Shallow embedding of the Kagu ORBCOMM ingestion engine
(`src/utils/orbcomm.js` and `src/config/clients.js`).

Conventions of the embedding:
* JS timestamps (`Date` values and ISO strings) are modelled as `Int`
  milliseconds since the epoch; `new Date()` at a call site becomes an
  explicit `now : Int` argument.
* JS `undefined`/missing fields become `Option` values.
* JS truthiness of numbers (`0`, `undefined` falsy) and strings
  (`""`, `undefined` falsy) is made explicit via `numTruthy`/`strTruthy`.
* The process-wide `Map`s of the singleton client are modelled as
  association lists with `Map.get`/`Map.set` semantics.
-/

namespace Kagu

/-- JS truthiness of an optional number: `undefined` and `0` are falsy
(`NaN` does not occur in the modelled fields). -/
def numTruthy : Option Int → Bool
  | none => false
  | some v => v != 0

/-- JS truthiness of an optional string: `undefined` and `""` are falsy. -/
def strTruthy : Option String → Bool
  | none => false
  | some s => s != ""

/-! ## Client visibility filter (`src/config/clients.js`) -/

/-- The per-client configuration fields consumed by `validateClientAccess`. -/
structure ClientConfig where
  specificAssets : List String
  assetPatterns : List String
  deriving Repr, DecidableEq

/-- The list `clients.KAGU.specificAssets` from `src/config/clients.js`. -/
def kaguSpecificAssets : List String :=
  ["TRIU8784787", "KAGU3330950", "KAGU3330820", "SZLU9721417", "SZLU3961914",
   "KAGU3331180", "KAGU3331339", "KAGU3331283", "KAGU7771228", "KAGU3331302"]

/-- The list `clients.KAGU.assetPatterns` from `src/config/clients.js`. -/
def kaguAssetPatterns : List String := ["KAGU*", "SZLU*", "TRIU*"]

/-- The single configured client `KAGU`. -/
def kaguClient : ClientConfig :=
  { specificAssets := kaguSpecificAssets, assetPatterns := kaguAssetPatterns }

/-- Lookup `getClientById`: the `clients` map holds exactly the key `KAGU`. -/
def getClientById (clientId : String) : Option ClientConfig :=
  if clientId = "KAGU" then some kaguClient else none

/-- Split a character list at its first `*`, returning the parts before and
after it; `none` when no `*` occurs. -/
def splitAtStar : List Char → Option (List Char × List Char)
  | [] => none
  | c :: rest =>
    if c = '*' then some ([], rest)
    else
      match splitAtStar rest with
      | some (before, after) => some (c :: before, after)
      | none => none

/-- One pattern test of `validateClientAccess`: the source builds the regex
`'^' + pattern.replace('*', '.*') + '$'` (replacing only the first `*`) and
tests the asset id against it.  With no `*` this is an anchored literal,
i.e. equality; with one `*` splitting the pattern into `before`/`after` it
matches exactly the strings `before ++ mid ++ after` (asset ids contain no
newline, so `.*` is an arbitrary infix).  The fixed config in
`clients.js` only ever contains single-trailing-`*` patterns; a pattern
with a second `*` (whose leftover `*` the regex would read as a
quantifier) is unreachable there and modelled as no-match. -/
def patternMatches (pattern assetId : String) : Bool :=
  match splitAtStar pattern.toList with
  | none => pattern == assetId
  | some (before, after) =>
    if after.contains '*' then false
    else
      before.isPrefixOf assetId.toList && after.isSuffixOf assetId.toList &&
        before.length + after.length ≤ assetId.toList.length

/-- Body of `validateClientAccess` once the client is resolved: exact
membership in `specificAssets` first, otherwise `assetPatterns.some (...)`. -/
def clientAccess (client : ClientConfig) (assetId : String) : Bool :=
  if client.specificAssets.contains assetId then true
  else client.assetPatterns.any (fun p => patternMatches p assetId)

/-- Translation of `validateClientAccess(clientId, assetId)` from `src/config/clients.js`. -/
def validateClientAccess (clientId assetId : String) : Bool :=
  match getClientById clientId with
  | none => false
  | some client => clientAccess client assetId

/-! ## Raw envelopes and the normalizer (`transformOrbcommEvent`) -/

/-- The `DeviceData` sub-object fields read by the normalizer. -/
structure RawDeviceData where
  DeviceID : Option String := none
  LastAssetID : Option String := none
  DeviceDataDtm : Option Int := none
  GPSLatitude : Option Int := none
  GPSLongitude : Option Int := none
  GPSLockState : Option String := none
  GPSSatelliteCount : Option Int := none
  GPSAltitude : Option Int := none
  GPSSpeed : Option Int := none
  GPSHeading : Option Int := none
  deriving Repr, DecidableEq

/-- The `ReeferData` sub-object fields read by the normalizer. -/
structure RawReeferData where
  AssetID : Option String := none
  TAmb : Option Int := none
  TSet : Option Int := none
  AlarmCode : Option String := none
  OperatingMode : Option String := none
  deriving Repr, DecidableEq

/-- One entry of `MessageData.Events`. -/
structure RawMessageEvent where
  EventType : Option String := none
  deriving Repr, DecidableEq

/-- The `MessageData` sub-object fields read by the normalizer. -/
structure RawMessageData where
  MsgID : Option String := none
  EventDtm : Option Int := none
  Events : Option (List RawMessageEvent) := none
  deriving Repr, DecidableEq

/-- The `GeofenceData` sub-object fields read by the normalizer. -/
structure RawGeofenceData where
  GeofenceID : Option String := none
  GeofenceName : Option String := none
  GeofenceType : Option String := none
  GeofenceEvent : Option String := none
  deriving Repr, DecidableEq

/-- The `Event` sub-object of a raw envelope. -/
structure RawEvent where
  EventClass : Option String := none
  DeviceData : Option RawDeviceData := none
  ReeferData : Option RawReeferData := none
  MessageData : Option RawMessageData := none
  GeofenceData : Option RawGeofenceData := none
  deriving Repr, DecidableEq

/-- One raw wire envelope as consumed by `transformOrbcommEvent`. -/
structure RawEnvelope where
  Event : Option RawEvent := none
  Sequence : Option Int := none
  deriving Repr, DecidableEq

/-- The `gpsData` block of a transformed event. -/
structure GpsData where
  latitude : Option Int := none
  longitude : Option Int := none
  hasGPS : Bool := false
  lockState : Option String := none
  satelliteCount : Option Int := none
  altitude : Option Int := none
  speed : Option Int := none
  heading : Option Int := none
  deriving Repr, DecidableEq

/-- The `reeferData` block of a transformed event. -/
structure ReeferBlock where
  assetId : Option String := none
  ambientTemp : Option Int := none
  setTemp : Option Int := none
  alarmCode : Option String := none
  operatingMode : Option String := none
  hasReeferData : Bool := false
  deriving Repr, DecidableEq

/-- The `geofenceData` block of a transformed event. -/
structure GeofenceBlock where
  geofenceId : Option String := none
  geofenceName : Option String := none
  geofenceType : Option String := none
  geofenceEvent : Option String := none
  hasGeofenceData : Bool := false
  deriving Repr, DecidableEq

/-- The canonical event produced by `transformOrbcommEvent`. -/
structure TelemetryEvent where
  sequence : Option Int
  messageId : Option String
  assetId : String
  deviceId : Option String
  eventClass : Option String
  eventTypes : List String
  primaryEventType : Option String
  eventTimestamp : Int
  deviceTimestamp : Option Int
  receivedTimestamp : Int
  gpsData : GpsData
  reeferData : ReeferBlock
  geofenceData : GeofenceBlock
  deriving Repr, DecidableEq

/-- Translation of `transformOrbcommEvent(eventData)` from `src/utils/orbcomm.js`.
`now` stands for the wall clock read by `new Date().toISOString()`
(used both as the `receivedTimestamp` and as the default `eventTimestamp`
when `MessageData.EventDtm` is absent/falsy). -/
def transformOrbcommEvent (now : Int) (eventData : RawEnvelope) : Option TelemetryEvent :=
  match eventData.Event with
  | none => none
  | some event =>
    let deviceData := event.DeviceData.getD {}
    let reeferData := event.ReeferData.getD {}
    let messageData := event.MessageData.getD {}
    let geofenceData := event.GeofenceData.getD {}
    let eventTypes := (messageData.Events.getD []).filterMap fun e =>
      match e.EventType with
      | some t => if t ≠ "" then some t else none
      | none => none
    -- const assetId = reeferData.AssetID || deviceData.LastAssetID
    let assetIdOpt := if strTruthy reeferData.AssetID then reeferData.AssetID
                      else deviceData.LastAssetID
    match assetIdOpt with
    | none => none
    | some assetId =>
      if assetId = "" then none -- if (!assetId) return null
      else
        some
          { sequence := eventData.Sequence
            messageId := messageData.MsgID
            assetId := assetId
            deviceId := deviceData.DeviceID
            eventClass := event.EventClass
            eventTypes := eventTypes
            primaryEventType :=
              match eventTypes with
              | t :: _ => some t
              | [] => event.EventClass
            eventTimestamp := messageData.EventDtm.getD now
            deviceTimestamp := deviceData.DeviceDataDtm
            receivedTimestamp := now
            gpsData :=
              { latitude := deviceData.GPSLatitude
                longitude := deviceData.GPSLongitude
                -- hasGPS: !!(deviceData.GPSLatitude && deviceData.GPSLongitude)
                hasGPS := numTruthy deviceData.GPSLatitude && numTruthy deviceData.GPSLongitude
                lockState := deviceData.GPSLockState
                satelliteCount := deviceData.GPSSatelliteCount
                altitude := deviceData.GPSAltitude
                speed := deviceData.GPSSpeed
                heading := deviceData.GPSHeading }
            reeferData :=
              { assetId := reeferData.AssetID
                ambientTemp := reeferData.TAmb
                setTemp := reeferData.TSet
                alarmCode := reeferData.AlarmCode
                operatingMode := reeferData.OperatingMode
                -- hasReeferData: !!(reeferData.AssetID)
                hasReeferData := strTruthy reeferData.AssetID }
            geofenceData :=
              { geofenceId := geofenceData.GeofenceID
                geofenceName := geofenceData.GeofenceName
                geofenceType := geofenceData.GeofenceType
                geofenceEvent := geofenceData.GeofenceEvent
                -- hasGeofenceData: !!(geofenceData.GeofenceID)
                hasGeofenceData := strTruthy geofenceData.GeofenceID } }

/-! ## Asset presence tracker -/

/-- The `lastLocation` record stored on an asset-status entry. -/
structure LastLocation where
  latitude : Option Int
  longitude : Option Int
  timestamp : Int
  deriving Repr, DecidableEq

/-- One entry of the `assetStatus` map (`updateAssetStatus`). -/
structure AssetStatusRec where
  firstSeen : Int
  lastSeen : Int
  lastLocation : Option LastLocation
  status : String
  eventCount : Nat
  lastEventReceived : Int
  hasDelayedReports : Bool := false
  lastDelayedReportReceived : Option Int := none
  deriving Repr, DecidableEq

/-- Constant `this.offlineThreshold = 15 * 60 * 1000` (constructor). -/
def defaultOfflineThreshold : Int := 15 * 60 * 1000

/-- Step of `updateAssetStatus`:
`if (!currentStatus.lastSeen || eventTime > new Date(currentStatus.lastSeen))
   currentStatus.lastSeen = eventTime`
(the record's `lastSeen` is always a Date, hence always truthy). -/
def updateLastSeen (eventTime : Int) (c : AssetStatusRec) : AssetStatusRec :=
  if eventTime > c.lastSeen then { c with lastSeen := eventTime } else c

/-- Condition of the location update:
`!currentStatus.lastLocation || eventTime > new Date(currentStatus.lastLocation.timestamp)`. -/
def locIsNewer (loc : Option LastLocation) (eventTime : Int) : Bool :=
  match loc with
  | none => true
  | some l => eventTime > l.timestamp

/-- Step of `updateAssetStatus`: store last known location if GPS is
available, but only if this location is newer than the current one. -/
def updateLocation (eventTime : Int) (gps : GpsData) (c : AssetStatusRec) : AssetStatusRec :=
  if gps.hasGPS then
    let newLocation : LastLocation :=
      { latitude := gps.latitude, longitude := gps.longitude, timestamp := eventTime }
    if locIsNewer c.lastLocation eventTime then { c with lastLocation := some newLocation }
    else c
  else c

/-- Step of `updateAssetStatus`: sticky delayed-report flag when
`(now - eventTime) > 300000` (5 minutes). -/
def markDelayed (now eventTime : Int) (c : AssetStatusRec) : AssetStatusRec :=
  if now - eventTime > 300000 then
    { c with hasDelayedReports := true, lastDelayedReportReceived := some now }
  else c

/-- Translation of `updateAssetStatus(assetId, eventTime, eventData)` from
`src/utils/orbcomm.js`, acting on the (possibly absent) current entry of
the `assetStatus` map and returning the entry written back. -/
def updateAssetStatus (offlineThreshold now eventTime : Int) (gps : GpsData)
    (cur0 : Option AssetStatusRec) : AssetStatusRec :=
  let c0 := cur0.getD
    { firstSeen := eventTime, lastSeen := eventTime, lastLocation := none,
      status := "unknown", eventCount := 0, lastEventReceived := now }
  let c1 := updateLastSeen eventTime c0
  -- Always update when we last received an event; eventCount++
  let c2 := { c1 with lastEventReceived := now, eventCount := c1.eventCount + 1 }
  let c3 := updateLocation eventTime gps c2
  -- Online/offline from the ACTUAL event age (now - eventTime)
  let c4 := { c3 with status := if now - eventTime ≤ offlineThreshold then "online" else "offline" }
  markDelayed now eventTime c4

/-- Translation of `getAssetStatus(assetId)` from `src/utils/orbcomm.js`, applied to the
current `assetStatus` entry of the asset. -/
def getAssetStatus (offlineThreshold now : Int) (rec : Option AssetStatusRec) : String :=
  match rec with
  | none => "unknown"
  | some s => if now - s.lastSeen ≤ offlineThreshold then "online" else "offline"

/-- The humanizing branch chain of `getOfflineDuration` on `diffMs`.
`Math.floor` on a nonnegative millisecond difference is integer division. -/
def humanizeOffline (diffMs : Int) : String :=
  if diffMs < 60000 then "Just now"
  else if diffMs < 3600000 then s!"{diffMs / 60000} minutes ago"
  else if diffMs < 86400000 then s!"{diffMs / 3600000} hours ago"
  else s!"{diffMs / 86400000} days ago"

/-- Translation of `getOfflineDuration(assetId)` from `src/utils/orbcomm.js`.  Note the
source tests the CACHED `status.status` field written by the last
`updateAssetStatus`, not the recomputed `getAssetStatus` value. -/
def getOfflineDuration (now : Int) (rec : Option AssetStatusRec) : Option String :=
  match rec with
  | none => none
  | some s =>
    if s.status = "online" then none
    else some (humanizeOffline (now - s.lastSeen))

/-- Translation of `storeHistoricalData(assetId, eventData)` acting on one asset's history
list: `unshift` of `{...eventData, storedAt: now}` (modelled as the pair
`(eventData, now)`), then `splice(100)` keeps the first 100 entries. -/
def storeHistoricalData {α : Type} (now : Int) (eventData : α)
    (history : List (α × Int)) : List (α × Int) :=
  ((eventData, now) :: history).take 100

/-! ## Fan-out hub (`messageHandlers` notification inside `processEvent`)

`addMessageHandler(handler)` adds a sink to the `messageHandlers` set and
returns an unsubscribe closure; `processEvent` then runs
`this.messageHandlers.forEach(handler => { try { handler(enrichedEvent); }
catch (error) { logger.error(...); } })`.  A sink is modelled as a function
into `Except String Unit` (`Except.error` = the JS callback throws), tagged
with a subscriber id so delivery can be observed. -/

/-- The notification loop of `processEvent` (lines 402-409): invoke every
registered handler in registration order on the event; a throwing handler
is caught (its error is logged, returned here as the second component) and
iteration continues.  The function is total: no exception propagates to
the publisher.  Returns (ids invoked in order, caught errors in order). -/
def notifyMessageHandlers {α : Type} :
    List (Nat × (α → Except String Unit)) → α → List Nat × List (Nat × String)
  | [], _ => ([], [])
  | (i, handler) :: rest, e =>
    let tail := notifyMessageHandlers rest e
    match handler e with
    | Except.ok _ => (i :: tail.1, tail.2)
    | Except.error msg => (i :: tail.1, (i, msg) :: tail.2)

/-! ## Connection manager (`connect` / `scheduleReconnect` / `disconnect`) -/

/-- The connection-lifecycle fields of `OrbcommClient`.  A live JS timer is
modelled by its handle: `heartbeatTimer` is the stored `setInterval`
handle (cleared by `stopHeartbeat`), while `pendingReconnects` records the
delays of reconnect `setTimeout`s created by `scheduleReconnect` — the
source never stores those handles, so nothing can clear them; an entry
stays pending until its timer fires `connect()`. -/
structure ConnState where
  isConnected : Bool
  reconnectInterval : Int
  reconnectAttempts : Nat
  maxReconnectAttempts : Nat
  heartbeatTimer : Option Nat
  pendingReconnects : List Int
  messageHandlerIds : List Nat
  wsOpen : Bool
  deriving Repr, DecidableEq

/-- Constructor state of `OrbcommClient` (connection fields). -/
def initialConnState : ConnState :=
  { isConnected := false
    reconnectInterval := 5000
    reconnectAttempts := 0
    maxReconnectAttempts := 10
    heartbeatTimer := none
    pendingReconnects := []
    messageHandlerIds := []
    wsOpen := false }

/-- Method `stopHeartbeat()`: `clearInterval` on the stored handle and null it. -/
def stopHeartbeat (s : ConnState) : ConnState :=
  { s with heartbeatTimer := none }

/-- Method `scheduleReconnect()`: below the attempt cap, increment the counter and
`setTimeout(connect, reconnectInterval * 2^(attempts-1))` — the handle is
discarded; at or above the cap, log and schedule nothing. -/
def scheduleReconnect (s : ConnState) : ConnState :=
  if s.reconnectAttempts < s.maxReconnectAttempts then
    let attempts := s.reconnectAttempts + 1
    { s with reconnectAttempts := attempts
             pendingReconnects :=
               s.pendingReconnects ++ [s.reconnectInterval * 2 ^ (attempts - 1)] }
  else s

/-- Method `disconnect()`: `stopHeartbeat()`, close and null the socket, clear the
connected flag and the handler set.  No reconnect `setTimeout` handle
exists to clear, so `pendingReconnects` is untouched. -/
def disconnect (s : ConnState) : ConnState :=
  { stopHeartbeat s with wsOpen := false, isConnected := false, messageHandlerIds := [] }

/-- Iterates `scheduleReconnect()` `n` times (one per close/error of a
failed connect attempt). -/
def iterSched : Nat → ConnState → ConnState
  | 0, s => s
  | n + 1, s => scheduleReconnect (iterSched n s)

/-- Modelled from the spec (section 4.1 state machine, which the source
implements only implicitly): the terminal `Failed` state — not connected
and the reconnect budget exhausted. -/
def specFailed (s : ConnState) : Prop :=
  s.isConnected = false ∧ s.maxReconnectAttempts ≤ s.reconnectAttempts

/-! ## `processEvent` and the singleton's keyed stores -/

/-- Models `Map.get` on an association list. -/
def mapGet {V : Type} : List (String × V) → String → Option V
  | [], _ => none
  | (k, v) :: rest, key => if k = key then some v else mapGet rest key

/-- Models `Map.set` on an association list: replace in place, else append. -/
def mapSet {V : Type} : List (String × V) → String → V → List (String × V)
  | [], key, v => [(key, v)]
  | (k, w) :: rest, key, v =>
    if k = key then (key, v) :: rest else (k, w) :: mapSet rest key v

/-- The event object stored in `deviceData` and `historicalData`:
`{...transformedEvent, receivedAt, status, lastUpdate, offlineDuration,
isDelayedReport, timeLags}`.  `timeLags.eventToReceived` is kept in
milliseconds (`calculateTimeLag` formats `|t2 - t1|` as a string and
`parseTimeLag` parses it back, a round trip that is the identity up to
sub-second truncation; the threshold tests only ever compare it with
whole-minute constants). -/
structure EnrichedEvent where
  base : TelemetryEvent
  receivedAt : Int
  status : String
  lastUpdate : Int
  offlineDuration : Option String
  isDelayedReport : Bool
  eventToReceivedMs : Option Int
  deriving Repr, DecidableEq

/-- The mutable keyed stores of the `OrbcommClient` singleton touched by
`processEvent`, plus the fire-and-forget persistence calls it issues
(`storeEventToDatabase` never blocks or throws into the pipeline; the
events handed to it are recorded in `dbStores`). -/
structure ClientState where
  deviceData : List (String × EnrichedEvent)
  historicalData : List (String × List (EnrichedEvent × Int))
  assetStatus : List (String × AssetStatusRec)
  kaguAssetCount : Nat
  dbStores : List EnrichedEvent
  offlineThreshold : Int
  deriving Repr, DecidableEq

/-- Constructor state of the keyed stores. -/
def emptyClientState : ClientState :=
  { deviceData := []
    historicalData := []
    assetStatus := []
    kaguAssetCount := 0
    dbStores := []
    offlineThreshold := defaultOfflineThreshold }

/-- Value of `calculateTimeLag(t1, t2)` reduced to its millisecond value
`|t2 - t1|` (the source formats this as a human string). -/
def calculateTimeLagMs (t1 t2 : Option Int) : Option Int :=
  match t1, t2 with
  | some a, some b => some ((b - a).natAbs : Int)
  | _, _ => none

/-- Translation of `processEvent(eventData)` from `src/utils/orbcomm.js`, restricted to
its state effects: transform the raw envelope; if the result's asset id
passes `validateClientAccess('KAGU', assetId)`, update the asset-status
entry, build the enriched event, write `deviceData`, append to the
asset's history, issue the fire-and-forget database store, and return the
enriched event (which is then handed to `notifyMessageHandlers`);
otherwise return `null` and touch nothing. -/
def processEvent (now : Int) (st : ClientState) (eventData : RawEnvelope) :
    Option EnrichedEvent × ClientState :=
  match transformOrbcommEvent now eventData with
  | none => (none, st)
  | some te =>
    if validateClientAccess "KAGU" te.assetId then
      let st1 := { st with kaguAssetCount := st.kaguAssetCount + 1 }
      -- statusUpdateTime = new Date(transformedEvent.eventTimestamp)
      let newStatus := updateAssetStatus st.offlineThreshold now te.eventTimestamp
        te.gpsData (mapGet st1.assetStatus te.assetId)
      let st2 := { st1 with assetStatus := mapSet st1.assetStatus te.assetId newStatus }
      let eventToReceived := calculateTimeLagMs (some te.eventTimestamp) (some te.receivedTimestamp)
      let enriched : EnrichedEvent :=
        { base := te
          receivedAt := te.receivedTimestamp
          status := getAssetStatus st.offlineThreshold now (mapGet st2.assetStatus te.assetId)
          lastUpdate := te.eventTimestamp
          offlineDuration := getOfflineDuration now (mapGet st2.assetStatus te.assetId)
          isDelayedReport :=
            match eventToReceived with
            | some lag => lag > 300000
            | none => false
          eventToReceivedMs := eventToReceived }
      let st3 := { st2 with deviceData := mapSet st2.deviceData te.assetId enriched }
      let newHistory :=
        storeHistoricalData now enriched ((mapGet st3.historicalData te.assetId).getD [])
      let st4 := { st3 with historicalData := mapSet st3.historicalData te.assetId newHistory }
      let st5 := { st4 with dbStores := st4.dbStores ++ [enriched] }
      (some enriched, st5)
    else (none, st)

/-! ## Projection lemmas for the presence-update steps -/

@[simp] lemma updateLastSeen_lastSeen (t : Int) (c : AssetStatusRec) :
    (updateLastSeen t c).lastSeen = max c.lastSeen t := by
  unfold updateLastSeen
  split
  · next h => exact (max_eq_right h.le).symm
  · next h => exact (max_eq_left (not_lt.mp h)).symm

@[simp] lemma updateLastSeen_eventCount (t : Int) (c : AssetStatusRec) :
    (updateLastSeen t c).eventCount = c.eventCount := by
  unfold updateLastSeen; split <;> rfl

@[simp] lemma updateLocation_lastSeen (t : Int) (g : GpsData) (c : AssetStatusRec) :
    (updateLocation t g c).lastSeen = c.lastSeen := by
  unfold updateLocation
  split
  · split <;> rfl
  · rfl

@[simp] lemma updateLocation_eventCount (t : Int) (g : GpsData) (c : AssetStatusRec) :
    (updateLocation t g c).eventCount = c.eventCount := by
  unfold updateLocation
  split
  · split <;> rfl
  · rfl

@[simp] lemma updateLocation_lastEventReceived (t : Int) (g : GpsData) (c : AssetStatusRec) :
    (updateLocation t g c).lastEventReceived = c.lastEventReceived := by
  unfold updateLocation
  split
  · split <;> rfl
  · rfl

@[simp] lemma markDelayed_lastSeen (n t : Int) (c : AssetStatusRec) :
    (markDelayed n t c).lastSeen = c.lastSeen := by
  unfold markDelayed; split <;> rfl

@[simp] lemma markDelayed_eventCount (n t : Int) (c : AssetStatusRec) :
    (markDelayed n t c).eventCount = c.eventCount := by
  unfold markDelayed; split <;> rfl

@[simp] lemma markDelayed_lastEventReceived (n t : Int) (c : AssetStatusRec) :
    (markDelayed n t c).lastEventReceived = c.lastEventReceived := by
  unfold markDelayed; split <;> rfl

lemma updateAssetStatus_lastSeen_some (th now t : Int) (g : GpsData) (c : AssetStatusRec) :
    (updateAssetStatus th now t g (some c)).lastSeen = max c.lastSeen t := by
  simp [updateAssetStatus]

lemma updateAssetStatus_lastSeen_none (th now t : Int) (g : GpsData) :
    (updateAssetStatus th now t g none).lastSeen = t := by
  simp [updateAssetStatus]

lemma updateAssetStatus_eventCount_some (th now t : Int) (g : GpsData) (c : AssetStatusRec) :
    (updateAssetStatus th now t g (some c)).eventCount = c.eventCount + 1 := by
  simp [updateAssetStatus]

lemma updateAssetStatus_lastEventReceived (th now t : Int) (g : GpsData)
    (cur0 : Option AssetStatusRec) :
    (updateAssetStatus th now t g cur0).lastEventReceived = now := by
  cases cur0 <;> simp [updateAssetStatus]

/-! ## Claim theorems -/

/-- C1: presence never regresses — applying event times `t1 < t2` in order
or in reverse (delayed arrival) both leave `lastSeen = t2`; in general the
update takes `max(current, eventTime)`; and every update, delayed or not,
increments `eventCount`, sets `lastEventReceived` to the receive time, and
appends the event at the head of the asset's history. -/
theorem C1_presence_no_regression (th n1 n2 t1 t2 : Int) (g1 g2 : GpsData)
    (h12 : t1 < t2) :
    (updateAssetStatus th n2 t2 g2 (some (updateAssetStatus th n1 t1 g1 none))).lastSeen = t2 ∧
    (updateAssetStatus th n2 t1 g1 (some (updateAssetStatus th n1 t2 g2 none))).lastSeen = t2 ∧
    (∀ (now t : Int) (g : GpsData) (c : AssetStatusRec),
      (updateAssetStatus th now t g (some c)).lastSeen = max c.lastSeen t ∧
      (updateAssetStatus th now t g (some c)).eventCount = c.eventCount + 1 ∧
      (updateAssetStatus th now t g (some c)).lastEventReceived = now) ∧
    (∀ (now : Int) (e : EnrichedEvent) (history : List (EnrichedEvent × Int)),
      (storeHistoricalData now e history).head? = some (e, now)) := by
  refine ⟨?_, ?_, ?_, ?_⟩
  · rw [updateAssetStatus_lastSeen_some, updateAssetStatus_lastSeen_none]
    exact max_eq_right h12.le
  · rw [updateAssetStatus_lastSeen_some, updateAssetStatus_lastSeen_none]
    exact max_eq_left h12.le
  · intro now t g c
    exact ⟨updateAssetStatus_lastSeen_some th now t g c,
           updateAssetStatus_eventCount_some th now t g c,
           updateAssetStatus_lastEventReceived th now t g (some c)⟩
  · intro now e history
    rw [storeHistoricalData, show (100 : Nat) = 99 + 1 from rfl, List.take_succ_cons,
      List.head?_cons]

/-- Witness for C1 at `t1 = 10 < 20 = t2`. -/
theorem C1_presence_no_regression_witness :
    (10 : Int) < 20 ∧
    (updateAssetStatus 900000 1 20 {} (some (updateAssetStatus 900000 0 10 {} none))).lastSeen
      = 20 ∧
    (updateAssetStatus 900000 1 10 {} (some (updateAssetStatus 900000 0 20 {} none))).lastSeen
      = 20 :=
  ⟨by decide,
   (C1_presence_no_regression 900000 0 1 10 20 {} {} (by decide)).1,
   (C1_presence_no_regression 900000 0 1 10 20 {} {} (by decide)).2.1⟩

/-- C2 counterexample: when no presence record exists, `getAssetStatus`
returns `"unknown"`, not `"never_seen"` as the claim states. -/
theorem C2_counterexample :
    getAssetStatus 900000 1000000 none = "unknown" ∧
    getAssetStatus 900000 1000000 none ≠ "never_seen" := by
  constructor <;> decide

/-- C2 (amended): reading an asset's status recomputes it from the wall
clock — `"online"` iff `now - lastSeen ≤ offlineThreshold` (default 15
minutes: `lastSeen = now - 16min` gives offline, `lastSeen = now - 1min`
gives online), `"offline"` otherwise, and `"unknown"` (not `"never_seen"`)
when no presence record exists. -/
theorem C2_status_recompute (th now : Int) (r : AssetStatusRec) :
    getAssetStatus th now none = "unknown" ∧
    (now - r.lastSeen ≤ th → getAssetStatus th now (some r) = "online") ∧
    (th < now - r.lastSeen → getAssetStatus th now (some r) = "offline") ∧
    (∀ rec : AssetStatusRec, rec.lastSeen = now - 16 * 60000 →
      getAssetStatus defaultOfflineThreshold now (some rec) = "offline") ∧
    (∀ rec : AssetStatusRec, rec.lastSeen = now - 60000 →
      getAssetStatus defaultOfflineThreshold now (some rec) = "online") := by
  refine ⟨rfl, ?_, ?_, ?_, ?_⟩
  · intro h
    show (if now - r.lastSeen ≤ th then "online" else "offline") = "online"
    rw [if_pos h]
  · intro h
    show (if now - r.lastSeen ≤ th then "online" else "offline") = "offline"
    rw [if_neg (not_le.mpr h)]
  · intro rec h
    have hn : ¬(now - rec.lastSeen ≤ defaultOfflineThreshold) := by
      rw [h]; unfold defaultOfflineThreshold; omega
    show (if now - rec.lastSeen ≤ defaultOfflineThreshold then "online" else "offline")
      = "offline"
    rw [if_neg hn]
  · intro rec h
    have hp : now - rec.lastSeen ≤ defaultOfflineThreshold := by
      rw [h]; unfold defaultOfflineThreshold; omega
    show (if now - rec.lastSeen ≤ defaultOfflineThreshold then "online" else "offline")
      = "online"
    rw [if_pos hp]

/-- A presence record as written by an update at event time 0 received at
time 0 (cached status `"online"`, `lastSeen = 0`). -/
def onlineAtZeroRec : AssetStatusRec := updateAssetStatus 900000 0 0 {} none

/-- Witness for C2 at threshold 15 min, `now = 960000` (16 min past the
only event) and `now = 60000` (1 min past it). -/
theorem C2_status_recompute_witness :
    getAssetStatus 900000 1000000 none = "unknown" ∧
    getAssetStatus defaultOfflineThreshold 960000 (some onlineAtZeroRec) = "offline" ∧
    getAssetStatus defaultOfflineThreshold 60000 (some onlineAtZeroRec) = "online" :=
  ⟨(C2_status_recompute 900000 1000000 onlineAtZeroRec).1,
   (C2_status_recompute defaultOfflineThreshold 960000 onlineAtZeroRec).2.2.2.1
     onlineAtZeroRec (by decide),
   (C2_status_recompute defaultOfflineThreshold 60000 onlineAtZeroRec).2.2.2.2
     onlineAtZeroRec (by decide)⟩

/-- C6 counterexample: the record written at time 0 has the cached status
field `"online"`.  Read 16 minutes later, the recomputed status is
`"offline"`, yet `getOfflineDuration` still returns `null` because the
source tests the stale cached field — the claim says the decision is made
on the recomputed status, which would give the humanized bucket here. -/
theorem C6_counterexample :
    getAssetStatus 900000 960000 (some onlineAtZeroRec) = "offline" ∧
    getOfflineDuration 960000 (some onlineAtZeroRec) = none := by
  constructor <;> decide

/-- C6 (amended): `getOfflineDuration` returns `null` when the asset is
unknown or when the CACHED status field written by the last update is
`"online"` (the stale cached value, not the recomputed status); otherwise
it returns the humanized bucket of `now - lastSeen`: "Just now" under one
minute, minutes under one hour, hours under one day, else days. -/
theorem C6_offline_duration (now : Int) (r : AssetStatusRec) :
    getOfflineDuration now none = none ∧
    (r.status = "online" → getOfflineDuration now (some r) = none) ∧
    (r.status ≠ "online" →
      getOfflineDuration now (some r) = some (humanizeOffline (now - r.lastSeen))) ∧
    (∀ d : Int, d < 60000 → humanizeOffline d = "Just now") ∧
    (∀ d : Int, 60000 ≤ d → d < 3600000 →
      humanizeOffline d = s!"{d / 60000} minutes ago") ∧
    (∀ d : Int, 3600000 ≤ d → d < 86400000 →
      humanizeOffline d = s!"{d / 3600000} hours ago") ∧
    (∀ d : Int, 86400000 ≤ d → humanizeOffline d = s!"{d / 86400000} days ago") := by
  refine ⟨rfl, ?_, ?_, ?_, ?_, ?_, ?_⟩
  · intro h
    show (if r.status = "online" then none
          else some (humanizeOffline (now - r.lastSeen))) = none
    rw [if_pos h]
  · intro h
    show (if r.status = "online" then none
          else some (humanizeOffline (now - r.lastSeen)))
      = some (humanizeOffline (now - r.lastSeen))
    rw [if_neg h]
  · intro d h
    unfold humanizeOffline
    rw [if_pos h]
  · intro d h1 h2
    unfold humanizeOffline
    rw [if_neg (not_lt.mpr h1), if_pos h2]
  · intro d h1 h2
    unfold humanizeOffline
    rw [if_neg (by omega : ¬d < 60000), if_neg (not_lt.mpr h1), if_pos h2]
  · intro d h1
    unfold humanizeOffline
    rw [if_neg (by omega : ¬d < 60000), if_neg (by omega : ¬d < 3600000),
      if_neg (not_lt.mpr h1)]

/-- A presence record whose cached status is `"offline"` (written by an
update whose event was already 16 minutes old when received). -/
def offlineAtZeroRec : AssetStatusRec := updateAssetStatus 900000 960000 0 {} none

/-- Witness for C6: an offline record yields the minutes bucket. -/
theorem C6_offline_duration_witness :
    getOfflineDuration 960000 (some offlineAtZeroRec)
      = some (humanizeOffline (960000 - offlineAtZeroRec.lastSeen)) ∧
    humanizeOffline 960000 = s!"{(960000 : Int) / 60000} minutes ago" ∧
    humanizeOffline 30000 = "Just now" :=
  ⟨(C6_offline_duration 960000 offlineAtZeroRec).2.2.1 (by decide),
   (C6_offline_duration 960000 offlineAtZeroRec).2.2.2.2.1 960000 (by decide) (by decide),
   (C6_offline_duration 960000 offlineAtZeroRec).2.2.2.1 30000 (by decide)⟩

set_option maxRecDepth 20000 in
/-- C7: each asset's history is newest-first with hard cap 100 — every
insertion places the new entry at index 0, its length law is
`min (previous + 1) 100` (the oldest entry beyond the cap is evicted), and
inserting 150 events leaves exactly 100 with index 0 equal to the 150th
inserted event (the fold inserts events `0..149` in order). -/
theorem C7_history_cap :
    (∀ (now : Int) (e : EnrichedEvent) (history : List (EnrichedEvent × Int)),
      (storeHistoricalData now e history).head? = some (e, now) ∧
      (storeHistoricalData now e history).length = min (history.length + 1) 100) ∧
    ((List.range 150).foldl (fun h i => storeHistoricalData (i : Int) i h) []).length = 100 ∧
    ((List.range 150).foldl (fun h i => storeHistoricalData (i : Int) i h) []).head?
      = some (149, 149) := by
  refine ⟨?_, by decide, by decide⟩
  intro now e history
  constructor
  · rw [storeHistoricalData, show (100 : Nat) = 99 + 1 from rfl, List.take_succ_cons,
      List.head?_cons]
  · rw [storeHistoricalData, List.length_take, Nat.min_comm, List.length_cons]

/-- C8: fan-out isolation — publishing to zero subscribers is a no-op;
every registered subscriber's sink is invoked in registration order no
matter which sinks throw (the total return type is the absence of an
escaping exception); concretely, with three subscribers where #2's sink
throws, #1 and #3 are still invoked and the error of #2 is caught. -/
theorem C8_fanout_isolated :
    (∀ e : Nat, notifyMessageHandlers ([] : List (Nat × (Nat → Except String Unit))) e
      = ([], [])) ∧
    (∀ (handlers : List (Nat × (Nat → Except String Unit))) (e : Nat),
      (notifyMessageHandlers handlers e).1 = handlers.map Prod.fst) ∧
    notifyMessageHandlers
      [(1, fun _ => Except.ok ()), (2, fun _ => Except.error "boom"),
       (3, fun _ => Except.ok ())] (42 : Nat)
      = ([1, 2, 3], [(2, "boom")]) := by
  refine ⟨fun e => rfl, ?_, rfl⟩
  intro handlers e
  induction handlers with
  | nil => rfl
  | cons hd tl ih =>
    obtain ⟨i, f⟩ := hd
    simp only [notifyMessageHandlers]
    cases hfe : f e <;> simp [hfe, ih]

/-- A connection state with a live heartbeat timer and one reconnect
timer pending (as after a close event while disconnected). -/
def c4ConnState : ConnState :=
  { initialConnState with
    isConnected := true
    wsOpen := true
    heartbeatTimer := some 1
    pendingReconnects := [5000] }

/-- C4 counterexample: after `disconnect()` the previously scheduled
reconnect timer is still pending — `scheduleReconnect` discards the
`setTimeout` handle, so `disconnect()` has nothing to clear and the
pending `connect()` will still execute, contradicting "cancels every
pending reconnect (backoff) timer". -/
theorem C4_counterexample :
    (disconnect c4ConnState).pendingReconnects = [5000] ∧
    (disconnect c4ConnState).pendingReconnects ≠ [] := by
  constructor <;> decide

/-- C4 (amended): `disconnect()` synchronously cancels the pending
heartbeat timer, clears the connected flag and the handler set, and is
idempotent under repeated calls; but it does NOT cancel pending reconnect
(backoff) timers — no handle to them is retained — so a previously
scheduled reconnect attempt still executes. -/
theorem C4_disconnect_partial_cancel (s : ConnState) :
    (disconnect s).heartbeatTimer = none ∧
    (disconnect s).isConnected = false ∧
    (disconnect s).messageHandlerIds = [] ∧
    disconnect (disconnect s) = disconnect s ∧
    (disconnect s).pendingReconnects = s.pendingReconnects :=
  ⟨rfl, rfl, rfl, rfl, rfl⟩

/-- Constructor state with the configured base reconnect delay `B`
(`reconnectInterval`). -/
def freshConn (base : Int) : ConnState :=
  { initialConnState with reconnectInterval := base }

/-- C5: reconnect attempt `n` (1 ≤ n ≤ 10) is scheduled after delay
`base * 2^(n-1)` — five attempts from a fresh state schedule delays
`B, 2B, 4B, 8B, 16B` and ten attempts `B..512B`; the 11th call against
`max = 10` schedules nothing (the state is unchanged, and in general
`scheduleReconnect` is the identity once the budget is exhausted), leaving
the terminal not-connected/budget-exhausted state the spec labels
`Failed`, until an external `connect()`. -/
theorem C5_reconnect_backoff (B : Int) :
    (iterSched 5 (freshConn B)).pendingReconnects = [B, 2*B, 4*B, 8*B, 16*B] ∧
    (iterSched 10 (freshConn B)).pendingReconnects
      = [B, 2*B, 4*B, 8*B, 16*B, 32*B, 64*B, 128*B, 256*B, 512*B] ∧
    iterSched 11 (freshConn B) = iterSched 10 (freshConn B) ∧
    (∀ s : ConnState, s.maxReconnectAttempts ≤ s.reconnectAttempts →
      scheduleReconnect s = s) ∧
    specFailed (iterSched 11 (freshConn B)) := by
  have hsched : ∀ s : ConnState, s.maxReconnectAttempts ≤ s.reconnectAttempts →
      scheduleReconnect s = s := by
    intro s h
    unfold scheduleReconnect
    rw [if_neg (not_lt.mpr h)]
  refine ⟨?_, ?_, ?_, hsched, ?_⟩
  · simp [iterSched, scheduleReconnect, freshConn, initialConnState]
    refine ⟨?_, ?_, ?_, ?_⟩ <;> ring
  · simp [iterSched, scheduleReconnect, freshConn, initialConnState]
    refine ⟨?_, ?_, ?_, ?_, ?_, ?_, ?_, ?_, ?_⟩ <;> ring
  · show scheduleReconnect (iterSched 10 (freshConn B)) = iterSched 10 (freshConn B)
    apply hsched
    simp [iterSched, scheduleReconnect, freshConn, initialConnState]
  · constructor
    · simp [iterSched, scheduleReconnect, freshConn, initialConnState]
    · simp [iterSched, scheduleReconnect, freshConn, initialConnState]

/-- Witness for C5: once the budget is exhausted (10 of 10 attempts used),
a further `scheduleReconnect()` changes nothing. -/
theorem C5_reconnect_backoff_witness :
    scheduleReconnect { initialConnState with reconnectAttempts := 10 }
      = { initialConnState with reconnectAttempts := 10 } :=
  (C5_reconnect_backoff 5000).2.2.2.1 _ (by decide)

/-- An envelope whose GPS latitude is exactly 0 (a legitimate equator
fix), longitude 45, with a reefer-reported asset id. -/
def zeroLatEnvelope : RawEnvelope :=
  { Event := some
      { DeviceData := some { GPSLatitude := some 0, GPSLongitude := some 45 }
        ReeferData := some { AssetID := some "KAGU3330950" } } }

/-- C3 counterexample: the normalizer computes
`hasGPS: !!(GPSLatitude && GPSLongitude)` — numeric truthiness — so a
latitude of exactly 0 yields `hasGPS = false`, not `true` as claimed. -/
theorem C3_counterexample :
    (transformOrbcommEvent 1000 zeroLatEnvelope).map (fun te => te.gpsData.hasGPS)
      = some false := by
  decide

/-- C3 (amended): for every successfully normalized envelope,
`hasReeferData` and `hasGeofenceData` are the JS truthiness of the
corresponding identifier (present and non-empty), but `hasGPS` is the
NUMERIC truthiness of both coordinates — present and non-zero — so a GPS
latitude or longitude of exactly 0 yields `hasGPS = false`. -/
theorem C3_presence_booleans (now : Int) (env : RawEnvelope) (ev : RawEvent)
    (te : TelemetryEvent) (hEv : env.Event = some ev)
    (hTe : transformOrbcommEvent now env = some te) :
    te.gpsData.hasGPS = (numTruthy (ev.DeviceData.getD {}).GPSLatitude &&
      numTruthy (ev.DeviceData.getD {}).GPSLongitude) ∧
    te.reeferData.hasReeferData = strTruthy (ev.ReeferData.getD {}).AssetID ∧
    te.geofenceData.hasGeofenceData = strTruthy (ev.GeofenceData.getD {}).GeofenceID := by
  unfold transformOrbcommEvent at hTe
  rw [hEv] at hTe
  dsimp only at hTe
  split at hTe
  · exact absurd hTe (by simp)
  · split at hTe
    · exact absurd hTe (by simp)
    · rw [Option.some.injEq] at hTe
      subst hTe
      exact ⟨rfl, rfl, rfl⟩

/-- The canonical event the normalizer produces from `zeroLatEnvelope` at
wall clock 1000. -/
def zeroLatTe : TelemetryEvent :=
  { sequence := none
    messageId := none
    assetId := "KAGU3330950"
    deviceId := none
    eventClass := none
    eventTypes := []
    primaryEventType := none
    eventTimestamp := 1000
    deviceTimestamp := none
    receivedTimestamp := 1000
    gpsData := { latitude := some 0, longitude := some 45, hasGPS := false }
    reeferData := { assetId := some "KAGU3330950", hasReeferData := true }
    geofenceData := {} }

/-- Witness for C3 (amended) on the zero-latitude envelope. -/
theorem C3_presence_booleans_witness :
    zeroLatTe.gpsData.hasGPS
      = (numTruthy ((zeroLatEnvelope.Event.getD {}).DeviceData.getD {}).GPSLatitude &&
         numTruthy ((zeroLatEnvelope.Event.getD {}).DeviceData.getD {}).GPSLongitude) ∧
    zeroLatTe.reeferData.hasReeferData
      = strTruthy ((zeroLatEnvelope.Event.getD {}).ReeferData.getD {}).AssetID :=
  ⟨(C3_presence_booleans 1000 zeroLatEnvelope ((zeroLatEnvelope.Event.getD {}))
      zeroLatTe (by decide) (by decide)).1,
   (C3_presence_booleans 1000 zeroLatEnvelope ((zeroLatEnvelope.Event.getD {}))
      zeroLatTe (by decide) (by decide)).2.1⟩

/-! ## Pattern lemmas for the visibility filter -/

lemma nil_isSuffixOf (l : List Char) : ([] : List Char).isSuffixOf l = true :=
  List.isSuffixOf_iff_suffix.mpr List.nil_suffix

/-- A single-trailing-`*` pattern matches exactly the asset ids that start
with the part before the `*`. -/
lemma patternMatches_trailing_star (p : String) (stem : List Char) (a : String)
    (h : splitAtStar p.toList = some (stem, [])) :
    patternMatches p a = stem.isPrefixOf a.toList := by
  unfold patternMatches
  rw [h]
  show (if ([] : List Char).contains '*' = true then false
    else stem.isPrefixOf a.toList && ([] : List Char).isSuffixOf a.toList &&
      decide (stem.length + ([] : List Char).length ≤ a.toList.length))
    = stem.isPrefixOf a.toList
  rw [if_neg (by decide)]
  cases hp : stem.isPrefixOf a.toList
  · rw [Bool.false_and, Bool.false_and]
  · have hle : stem.length ≤ a.toList.length :=
      (List.isPrefixOf_iff_prefix.mp hp).length_le
    rw [nil_isSuffixOf, Bool.true_and, Bool.true_and, decide_eq_true (by simpa using hle)]

lemma patternMatches_kagu (a : String) :
    patternMatches "KAGU*" a = "KAGU".toList.isPrefixOf a.toList :=
  patternMatches_trailing_star _ _ _ (by decide)

lemma patternMatches_szlu (a : String) :
    patternMatches "SZLU*" a = "SZLU".toList.isPrefixOf a.toList :=
  patternMatches_trailing_star _ _ _ (by decide)

lemma patternMatches_triu (a : String) :
    patternMatches "TRIU*" a = "TRIU".toList.isPrefixOf a.toList :=
  patternMatches_trailing_star _ _ _ (by decide)

/-- C9: the visibility filter is a pure function of (clientId, assetId):
an exact match in the client's `specificAssets` allow-list grants access
regardless of the patterns (in particular "KAGU3331339", and for any
client configuration whose allow-list holds the id, even one with no
patterns at all); otherwise the asset is granted iff some single-trailing-
`*` pattern's stem is a prefix of it; "ZZZZ1" matches none of
`["KAGU*","SZLU*","TRIU*"]`. -/
theorem C9_visibility_filter :
    validateClientAccess "KAGU" "KAGU3331339" = true ∧
    (∀ (c : ClientConfig) (a : String), a ∈ c.specificAssets → clientAccess c a = true) ∧
    clientAccess { specificAssets := ["KAGU3331339"], assetPatterns := [] } "KAGU3331339"
      = true ∧
    (∀ a : String, a ∉ kaguClient.specificAssets →
      validateClientAccess "KAGU" a
        = ("KAGU".toList.isPrefixOf a.toList || "SZLU".toList.isPrefixOf a.toList ||
           "TRIU".toList.isPrefixOf a.toList)) ∧
    validateClientAccess "KAGU" "ZZZZ1" = false := by
  refine ⟨by decide, ?_, by decide, ?_, by decide⟩
  · intro c a ha
    unfold clientAccess
    rw [if_pos (List.elem_eq_true_of_mem ha)]
  · intro a ha
    have hc : kaguClient.specificAssets.contains a = false := by
      cases hcc : kaguClient.specificAssets.contains a
      · rfl
      · exact absurd (List.mem_of_elem_eq_true hcc) ha
    show clientAccess kaguClient a = _
    unfold clientAccess
    rw [hc]
    show (kaguAssetPatterns.any fun p => patternMatches p a) = _
    show (patternMatches "KAGU*" a || ((patternMatches "SZLU*" a) ||
      ((patternMatches "TRIU*" a) || false))) = _
    rw [patternMatches_kagu, patternMatches_szlu, patternMatches_triu, Bool.or_false,
      Bool.or_assoc]

/-- Witness for C9: a client holding "KAGU3331339" in its allow-list (with
no patterns) grants it, and a non-listed id is decided by the prefix
patterns alone. -/
theorem C9_visibility_filter_witness :
    clientAccess { specificAssets := ["KAGU3331339"], assetPatterns := [] } "KAGU3331339"
      = true ∧
    validateClientAccess "KAGU" "SZLU0000001"
      = ("KAGU".toList.isPrefixOf "SZLU0000001".toList ||
         "SZLU".toList.isPrefixOf "SZLU0000001".toList ||
         "TRIU".toList.isPrefixOf "SZLU0000001".toList) :=
  ⟨C9_visibility_filter.2.1 { specificAssets := ["KAGU3331339"], assetPatterns := [] }
      "KAGU3331339" (by decide),
   C9_visibility_filter.2.2.2.1 "SZLU0000001" (by decide)⟩

/-- C10: ingestion is hard-wired to the `KAGU` client's visibility — an
event whose normalized asset id fails `validateClientAccess('KAGU', _)` is
dropped by `processEvent` (returns `null`) with no state change (no
presence update, no history append, no device-data write, no persistence
call, and, since no enriched event is returned, no fan-out delivery); a
non-normalizable envelope is likewise a no-op; conversely any state change
or delivered event implies the asset id was accepted. -/
theorem C10_ingestion_gate :
    (∀ (now : Int) (st : ClientState) (env : RawEnvelope) (te : TelemetryEvent),
      transformOrbcommEvent now env = some te →
      validateClientAccess "KAGU" te.assetId = false →
      processEvent now st env = (none, st)) ∧
    (∀ (now : Int) (st : ClientState) (env : RawEnvelope),
      transformOrbcommEvent now env = none →
      processEvent now st env = (none, st)) ∧
    (∀ (now : Int) (st : ClientState) (env : RawEnvelope),
      (processEvent now st env).2 ≠ st ∨ (processEvent now st env).1 ≠ none →
      ∃ te, transformOrbcommEvent now env = some te ∧
        validateClientAccess "KAGU" te.assetId = true) := by
  refine ⟨?_, ?_, ?_⟩
  · intro now st env te hT hV
    simp [processEvent, hT, hV]
  · intro now st env hT
    simp [processEvent, hT]
  · intro now st env h
    cases hT : transformOrbcommEvent now env with
    | none =>
      simp [processEvent, hT] at h
    | some te =>
      cases hV : validateClientAccess "KAGU" te.assetId with
      | false =>
        simp [processEvent, hT, hV] at h
      | true =>
        exact ⟨te, hT ▸ rfl, hV⟩

/-- An envelope normalizing to asset id "ZZZZ1", which fails the KAGU
visibility filter. -/
def foreignEnvelope : RawEnvelope :=
  { Event := some { ReeferData := some { AssetID := some "ZZZZ1" } } }

/-- The canonical event the normalizer produces from `foreignEnvelope` at
wall clock 7. -/
def foreignTe : TelemetryEvent :=
  { sequence := none
    messageId := none
    assetId := "ZZZZ1"
    deviceId := none
    eventClass := none
    eventTypes := []
    primaryEventType := none
    eventTimestamp := 7
    deviceTimestamp := none
    receivedTimestamp := 7
    gpsData := {}
    reeferData := { assetId := some "ZZZZ1", hasReeferData := true }
    geofenceData := {} }

/-- Witness for C10: the foreign-asset envelope is dropped with no state
change on the empty store. -/
theorem C10_ingestion_gate_witness :
    processEvent 7 emptyClientState foreignEnvelope = (none, emptyClientState) :=
  C10_ingestion_gate.1 7 emptyClientState foreignEnvelope foreignTe (by decide) (by decide)

end Kagu
